import Mathlib

/-!
Verification development for the Inbox_SaaS lead-relay service.

The Python modules `app/db.py`, `app/server.py`, `app/bot.py` and
`app/formatting.py` are embedded shallowly: the SQLite database becomes an
explicit `DB` value threaded through the operations, the Telegram transport
becomes a trace of outbound calls, and wall-clock / transport responses
(`utc_now_iso`, fake message ids, `datetime` rendering) become explicit
parameters.  Each embedded definition keeps the name of the Python function
it translates.
-/

namespace Inbox

/-! ## Python string primitives

Core Lean `String` functions do not reduce in the kernel, so the Python
string operations used by the code (`str.strip`, `str.split`,
`str.startswith`, `int(...)`) are implemented structurally on `String.data`.
-/

/-- Python truthiness of an optional string: `None` and `""` are falsy. -/
def truthyS : Option String → Bool
  | none => false
  | some s => s ≠ ""

/-- Python truthiness of an optional integer: `None` and `0` are falsy. -/
def truthyI : Option Int → Bool
  | none => false
  | some n => n ≠ 0

def splitCharAux (sep : Char) : List Char → List Char → List (List Char)
  | [], acc => [acc.reverse]
  | c :: cs, acc =>
    if c = sep then acc.reverse :: splitCharAux sep cs []
    else splitCharAux sep cs (c :: acc)

/-- Python `s.split(sep)` for a one-character separator. -/
def pySplit (s : String) (sep : Char) : List String :=
  (splitCharAux sep s.data []).map String.mk

def charsBeginWith : List Char → List Char → Bool
  | [], _ => true
  | _ :: _, [] => false
  | p :: ps, c :: cs => p = c && charsBeginWith ps cs

/-- Python `s.startswith(p)`. -/
def pyStartsWith (s p : String) : Bool := charsBeginWith p.data s.data

/-- Python `str.isspace()`: the Unicode whitespace set CPython strips in
`str.strip()` and around `int(...)` literals — ASCII `\t\n\v\f\r `,
`\x1c`–`\x1f`, NEL, NBSP, and the Unicode space separators. -/
def pyIsSpace (c : Char) : Bool :=
  let n := c.toNat
  (0x9 ≤ n ∧ n ≤ 0xd) || (0x1c ≤ n ∧ n ≤ 0x20) || n = 0x85 || n = 0xa0 ||
  n = 0x1680 || (0x2000 ≤ n ∧ n ≤ 0x200a) || n = 0x2028 || n = 0x2029 ||
  n = 0x202f || n = 0x205f || n = 0x3000

def pyStripChars (l : List Char) : List Char :=
  ((l.dropWhile pyIsSpace).reverse.dropWhile pyIsSpace).reverse

/-- Python `s.strip()` (full Unicode whitespace set). -/
def pyStrip (s : String) : String := String.mk (pyStripChars s.data)

/-- The decimal value of a Unicode decimal digit (category Nd), the digit
set CPython's `int(str)` accepts; the runs are generated from the Unicode
database (`unicodedata.decimal`). -/
def pyDigitVal (c : Char) : Option Nat :=
  let n := c.toNat
  if 0x30 ≤ n ∧ n ≤ 0x39 then some (n - 0x30)
  else if 0x660 ≤ n ∧ n ≤ 0x669 then some (n - 0x660)
  else if 0x6f0 ≤ n ∧ n ≤ 0x6f9 then some (n - 0x6f0)
  else if 0x7c0 ≤ n ∧ n ≤ 0x7c9 then some (n - 0x7c0)
  else if 0x966 ≤ n ∧ n ≤ 0x96f then some (n - 0x966)
  else if 0x9e6 ≤ n ∧ n ≤ 0x9ef then some (n - 0x9e6)
  else if 0xa66 ≤ n ∧ n ≤ 0xa6f then some (n - 0xa66)
  else if 0xae6 ≤ n ∧ n ≤ 0xaef then some (n - 0xae6)
  else if 0xb66 ≤ n ∧ n ≤ 0xb6f then some (n - 0xb66)
  else if 0xbe6 ≤ n ∧ n ≤ 0xbef then some (n - 0xbe6)
  else if 0xc66 ≤ n ∧ n ≤ 0xc6f then some (n - 0xc66)
  else if 0xce6 ≤ n ∧ n ≤ 0xcef then some (n - 0xce6)
  else if 0xd66 ≤ n ∧ n ≤ 0xd6f then some (n - 0xd66)
  else if 0xde6 ≤ n ∧ n ≤ 0xdef then some (n - 0xde6)
  else if 0xe50 ≤ n ∧ n ≤ 0xe59 then some (n - 0xe50)
  else if 0xed0 ≤ n ∧ n ≤ 0xed9 then some (n - 0xed0)
  else if 0xf20 ≤ n ∧ n ≤ 0xf29 then some (n - 0xf20)
  else if 0x1040 ≤ n ∧ n ≤ 0x1049 then some (n - 0x1040)
  else if 0x1090 ≤ n ∧ n ≤ 0x1099 then some (n - 0x1090)
  else if 0x17e0 ≤ n ∧ n ≤ 0x17e9 then some (n - 0x17e0)
  else if 0x1810 ≤ n ∧ n ≤ 0x1819 then some (n - 0x1810)
  else if 0x1946 ≤ n ∧ n ≤ 0x194f then some (n - 0x1946)
  else if 0x19d0 ≤ n ∧ n ≤ 0x19d9 then some (n - 0x19d0)
  else if 0x1a80 ≤ n ∧ n ≤ 0x1a89 then some (n - 0x1a80)
  else if 0x1a90 ≤ n ∧ n ≤ 0x1a99 then some (n - 0x1a90)
  else if 0x1b50 ≤ n ∧ n ≤ 0x1b59 then some (n - 0x1b50)
  else if 0x1bb0 ≤ n ∧ n ≤ 0x1bb9 then some (n - 0x1bb0)
  else if 0x1c40 ≤ n ∧ n ≤ 0x1c49 then some (n - 0x1c40)
  else if 0x1c50 ≤ n ∧ n ≤ 0x1c59 then some (n - 0x1c50)
  else if 0xa620 ≤ n ∧ n ≤ 0xa629 then some (n - 0xa620)
  else if 0xa8d0 ≤ n ∧ n ≤ 0xa8d9 then some (n - 0xa8d0)
  else if 0xa900 ≤ n ∧ n ≤ 0xa909 then some (n - 0xa900)
  else if 0xa9d0 ≤ n ∧ n ≤ 0xa9d9 then some (n - 0xa9d0)
  else if 0xa9f0 ≤ n ∧ n ≤ 0xa9f9 then some (n - 0xa9f0)
  else if 0xaa50 ≤ n ∧ n ≤ 0xaa59 then some (n - 0xaa50)
  else if 0xabf0 ≤ n ∧ n ≤ 0xabf9 then some (n - 0xabf0)
  else if 0xff10 ≤ n ∧ n ≤ 0xff19 then some (n - 0xff10)
  else if 0x104a0 ≤ n ∧ n ≤ 0x104a9 then some (n - 0x104a0)
  else if 0x10d30 ≤ n ∧ n ≤ 0x10d39 then some (n - 0x10d30)
  else if 0x11066 ≤ n ∧ n ≤ 0x1106f then some (n - 0x11066)
  else if 0x110f0 ≤ n ∧ n ≤ 0x110f9 then some (n - 0x110f0)
  else if 0x11136 ≤ n ∧ n ≤ 0x1113f then some (n - 0x11136)
  else if 0x111d0 ≤ n ∧ n ≤ 0x111d9 then some (n - 0x111d0)
  else if 0x112f0 ≤ n ∧ n ≤ 0x112f9 then some (n - 0x112f0)
  else if 0x11450 ≤ n ∧ n ≤ 0x11459 then some (n - 0x11450)
  else if 0x114d0 ≤ n ∧ n ≤ 0x114d9 then some (n - 0x114d0)
  else if 0x11650 ≤ n ∧ n ≤ 0x11659 then some (n - 0x11650)
  else if 0x116c0 ≤ n ∧ n ≤ 0x116c9 then some (n - 0x116c0)
  else if 0x11730 ≤ n ∧ n ≤ 0x11739 then some (n - 0x11730)
  else if 0x118e0 ≤ n ∧ n ≤ 0x118e9 then some (n - 0x118e0)
  else if 0x11950 ≤ n ∧ n ≤ 0x11959 then some (n - 0x11950)
  else if 0x11c50 ≤ n ∧ n ≤ 0x11c59 then some (n - 0x11c50)
  else if 0x11d50 ≤ n ∧ n ≤ 0x11d59 then some (n - 0x11d50)
  else if 0x11da0 ≤ n ∧ n ≤ 0x11da9 then some (n - 0x11da0)
  else if 0x16a60 ≤ n ∧ n ≤ 0x16a69 then some (n - 0x16a60)
  else if 0x16ac0 ≤ n ∧ n ≤ 0x16ac9 then some (n - 0x16ac0)
  else if 0x16b50 ≤ n ∧ n ≤ 0x16b59 then some (n - 0x16b50)
  else if 0x1d7ce ≤ n ∧ n ≤ 0x1d7d7 then some (n - 0x1d7ce)
  else if 0x1d7d8 ≤ n ∧ n ≤ 0x1d7e1 then some (n - 0x1d7d8)
  else if 0x1d7e2 ≤ n ∧ n ≤ 0x1d7eb then some (n - 0x1d7e2)
  else if 0x1d7ec ≤ n ∧ n ≤ 0x1d7f5 then some (n - 0x1d7ec)
  else if 0x1d7f6 ≤ n ∧ n ≤ 0x1d7ff then some (n - 0x1d7f6)
  else if 0x1e140 ≤ n ∧ n ≤ 0x1e149 then some (n - 0x1e140)
  else if 0x1e2f0 ≤ n ∧ n ≤ 0x1e2f9 then some (n - 0x1e2f0)
  else if 0x1e950 ≤ n ∧ n ≤ 0x1e959 then some (n - 0x1e950)
  else if 0x1fbf0 ≤ n ∧ n ≤ 0x1fbf9 then some (n - 0x1fbf0)
  else none

/-- The tail of Python's `digitpart ::= digit (["_"] digit)*`: an
underscore is legal only between two digits (so no trailing or doubled
underscore). -/
def pyDigitsAux : List Char → Nat → Option Nat
  | [], acc => some acc
  | '_' :: cs, acc =>
    match cs with
    | [] => none
    | c :: cs' =>
      match pyDigitVal c with
      | some d => pyDigitsAux cs' (acc * 10 + d)
      | none => none
  | c :: cs, acc =>
    match pyDigitVal c with
    | some d => pyDigitsAux cs (acc * 10 + d)
    | none => none

/-- A Python decimal digit string: must start with a digit (no leading
underscore), then digits with optional single grouping underscores. -/
def pyDigits : List Char → Option Nat
  | [] => none
  | c :: cs =>
    match pyDigitVal c with
    | some d => pyDigitsAux cs d
    | none => none

/-- Python `int(s)`: optional surrounding whitespace (`pyIsSpace`), an
optional ASCII sign, then Unicode decimal digits with Python's grouping
underscores (`int("1_0") = 10`, `"_1"`, `"1_"`, `"1__0"` rejected). -/
def parsePyInt (s : String) : Option Int :=
  match pyStripChars s.data with
  | [] => none
  | '-' :: rest => (pyDigits rest).map (fun n => -(n : Int))
  | '+' :: rest => (pyDigits rest).map (fun n => (n : Int))
  | l => (pyDigits l).map (fun n => (n : Int))

/-! ## Data model (`app/db.py` schema) -/

/-- A row of the `users` table (a tenant). -/
structure User where
  id : Nat
  tg_chat_id : Option Int
  token : String
  created_at : String
deriving Repr, DecidableEq

/-- A row of the `clients` table. -/
structure Client where
  id : Nat
  user_id : Nat
  name : Option String
  phone : Option String
  created_at : String
deriving Repr, DecidableEq

/-- A row of the `leads` table. -/
structure Lead where
  id : Nat
  user_id : Nat
  client_id : Option Nat
  source : String
  name : Option String
  phone : Option String
  text : String
  status : String
  created_at : String
  tg_chat_id : Option Int
  tg_message_id : Option Int
deriving Repr, DecidableEq

/-- The SQLite database state: the three tables plus the AUTOINCREMENT
counters (SQLite starts them at 1). -/
structure DB where
  users : List User
  clients : List Client
  leads : List Lead
  nextUserId : Nat := 1
  nextClientId : Nat := 1
  nextLeadId : Nat := 1
deriving Repr, DecidableEq

/-- Autoincrement well-formedness: every stored row id is below the next
id the table will hand out, and ids are unique (primary keys). -/
def DB.WF (db : DB) : Prop :=
  (∀ u ∈ db.users, u.id < db.nextUserId) ∧ (db.users.map User.id).Nodup ∧
  (∀ c ∈ db.clients, c.id < db.nextClientId) ∧ (db.clients.map Client.id).Nodup ∧
  (∀ l ∈ db.leads, l.id < db.nextLeadId) ∧ (db.leads.map Lead.id).Nodup

/-! ## `app/db.py` operations -/

/-- The `db.get_user_by_token`: `SELECT * FROM users WHERE token = ?` (first row). -/
def get_user_by_token (db : DB) (token : String) : Option User :=
  db.users.find? (fun u => u.token = token)

/-- The `while` loop of `get_or_create_user_by_chat_id` that retries
`_gen_token()` until the token is not yet present; the nondeterministic
generator is modelled as the stream `cands` of candidate tokens, and the
loop fails (`none`) only when the stream is exhausted. -/
def genFreshToken (used : List String) : List String → Option String
  | [] => none
  | t :: rest => if used.contains t then genFreshToken used rest else some t

/-- The `db.get_or_create_user_by_chat_id`.  `cands` feeds `_gen_token()`,
`now` is `utc_now_iso()`.  Returns the row re-selected by chat id after the
insert, exactly as the Python does. -/
def get_or_create_user_by_chat_id (db : DB) (tg_chat_id : Int)
    (cands : List String) (now : String) : Option (User × DB) :=
  match db.users.find? (fun u => u.tg_chat_id = some tg_chat_id) with
  | some row => some (row, db)
  | none =>
    match genFreshToken (db.users.map User.token) cands with
    | none => none
    | some token =>
      let u : User := ⟨db.nextUserId, some tg_chat_id, token, now⟩
      let db' : DB := { db with users := db.users ++ [u], nextUserId := db.nextUserId + 1 }
      (db'.users.find? (fun v => v.tg_chat_id = some tg_chat_id)).map (fun r => (r, db'))

/-- SQL `COALESCE` on two nullable strings. -/
def coalesce (a b : Option String) : Option String :=
  match a with
  | some x => some x
  | none => b

/-- The `SELECT id FROM clients WHERE user_id = ? AND phone = ? ORDER BY id DESC
LIMIT 1`: the matching row with the greatest id. -/
def newestOf : List Client → Option Client
  | [] => none
  | c :: cs =>
    match newestOf cs with
    | none => some c
    | some d => if d.id < c.id then some c else some d

def newestClientMatch (db : DB) (user_id : Nat) (p : String) : Option Client :=
  newestOf (db.clients.filter (fun c => c.user_id = user_id ∧ c.phone = some p))

/-- The `UPDATE clients SET name = COALESCE(?, name) WHERE id = ?`. -/
def overwriteClientName (cs : List Client) (cid : Nat) (nm : String) : List Client :=
  cs.map (fun c => if c.id = cid then { c with name := coalesce (some nm) c.name } else c)

/-- The `db.upsert_client`.  Mirrors the Python truthiness tests: `phone` and
`name` count as present only when non-`None` and non-empty. -/
def upsert_client (db : DB) (user_id : Nat) (name phone : Option String)
    (now : String) : Option Nat × DB :=
  if ¬(truthyS name || truthyS phone) then (none, db)
  else
    let inserted : Option Nat × DB :=
      (some db.nextClientId,
        { db with
          clients := db.clients ++ [⟨db.nextClientId, user_id, name, phone, now⟩],
          nextClientId := db.nextClientId + 1 })
    match phone with
    | some p =>
      if p ≠ "" then
        match newestClientMatch db user_id p with
        | some row =>
          match name with
          | some nm =>
            if nm ≠ "" then
              (some row.id, { db with clients := overwriteClientName db.clients row.id nm })
            else (some row.id, db)
          | none => (some row.id, db)
        | none => inserted
      else inserted
    | none => inserted

/-- The `db.create_lead`: insert a lead row and return `last_insert_rowid()`. -/
def create_lead (db : DB) (user_id : Nat) (source text : String)
    (name phone : Option String) (client_id : Option Nat) (status : String)
    (tg_chat_id : Option Int) (now : String) : Nat × DB :=
  let l : Lead :=
    ⟨db.nextLeadId, user_id, client_id, source, name, phone, text, status, now, tg_chat_id, none⟩
  (db.nextLeadId, { db with leads := db.leads ++ [l], nextLeadId := db.nextLeadId + 1 })

/-- The `db.set_lead_status`: `UPDATE leads SET status = ? WHERE id = ?`. -/
def set_lead_status (db : DB) (lead_id : Int) (status : String) : DB :=
  { db with
    leads := db.leads.map (fun l => if (l.id : Int) = lead_id then { l with status := status } else l) }

/-- The `db.set_lead_telegram_message`. -/
def set_lead_telegram_message (db : DB) (lead_id : Int) (tg_message_id tg_chat_id : Int) : DB :=
  { db with
    leads := db.leads.map (fun l =>
      if (l.id : Int) = lead_id then
        { l with tg_message_id := some tg_message_id, tg_chat_id := some tg_chat_id }
      else l) }

/-- The `db.get_lead_by_id`: `SELECT * FROM leads WHERE id = ?` (first row). -/
def get_lead_by_id (db : DB) (lead_id : Int) : Option Lead :=
  db.leads.find? (fun l => (l.id : Int) = lead_id)

/-- SQLite `LIMIT ?` semantics: a negative limit means no limit. -/
def sqlLimit {α : Type} (limit : Int) (rows : List α) : List α :=
  if limit < 0 then rows else rows.take limit.toNat

def insertByIdDesc (l : Lead) : List Lead → List Lead
  | [] => [l]
  | x :: xs => if x.id ≤ l.id then l :: x :: xs else x :: insertByIdDesc l xs

/-- The `ORDER BY id DESC`. -/
def sortByIdDesc : List Lead → List Lead
  | [] => []
  | x :: xs => insertByIdDesc x (sortByIdDesc xs)

/-- The `db.list_recent_leads`: `SELECT * FROM leads WHERE user_id = ?
ORDER BY id DESC LIMIT ?`.  Note: no clamping happens here — the raw SQL
`LIMIT` is applied. -/
def list_recent_leads (db : DB) (user_id : Nat) (limit : Int) : List Lead :=
  sqlLimit limit (sortByIdDesc (db.leads.filter (fun l => l.user_id = user_id)))

/-! ## `app/formatting.py`

The non-ASCII literals below reproduce, codepoint for codepoint, the
literals stored in the source file. -/

/-- The `STATUS_EMOJI.get(status, "üìù")`. -/
def statusEmoji (status : String) : String :=
  if status = "new" then "üÜï"
  else if status = "booked" then "‚úÖ"
  else if status = "call_back" then "‚è∞"
  else if status = "rejected" then "‚ùå"
  else "üìù"

/-- The `STATUS_LABEL.get(status, status)`. -/
def statusLabel (status : String) : String :=
  if status = "new" then "–ù–æ–≤–∞—è"
  else if status = "booked" then
    "–ó–∞–ø–∏—Å–∞–Ω(–∞)"
  else if status = "call_back" then
    "–ü–µ—Ä–µ–∑–≤–æ–Ω–∏—Ç—å"
  else if status = "rejected" then
    "–û—Ç–∫–∞–∑"
  else status

/-- The placeholder dash used by `_safe`. -/
def phDash : String := "‚Äî"

/-- The `_safe(v)`: `(v or "—").strip() or "—"` with the source's placeholder. -/
def pySafe (v : Option String) : String :=
  let s : String :=
    match v with
    | none => phDash
    | some s => if s = "" then phDash else s
  let t := pyStrip s
  if t = "" then phDash else t

/-- Python `sep.join(lines)`. -/
def pyJoin (sep : String) : List String → String
  | [] => ""
  | [x] => x
  | x :: y :: xs => x ++ sep ++ pyJoin sep (y :: xs)

/-- The `format_lead_text(lead)`.  The `try: datetime.fromisoformat(...)
.strftime(...) except ...` block computing `created_human` is abstracted as
the parameter `fmtTs` (a pure function of the stored timestamp); the line is
included only when the result is non-empty, as in the source. -/
def format_lead_text (fmtTs : String → String) (lead : Lead) : String :=
  let emoji := statusEmoji lead.status
  let created_human := fmtTs lead.created_at
  let lines : List String :=
    [emoji ++ " " ++ "–ó–∞—è–≤–∫–∞ #"
      ++ toString lead.id ++ " " ++ phDash ++ " " ++ statusLabel lead.status]
  let lines := if created_human ≠ "" then
      lines ++ ["üïí " ++ created_human ++ " (UTC)"]
    else lines
  let lines := lines ++
    ["üë§ " ++ pySafe lead.name,
     "üìû " ++ pySafe lead.phone,
     "üì© " ++ pySafe lead.source,
     "",
     "üí¨ " ++ pySafe lead.text]
  pyJoin "\n" lines

/-- The `lead_keyboard(lead_id)`: the inline keyboard as rows of
`(button text, callback_data)` pairs. -/
def lead_keyboard (lead_id : Int) : List (List (String × String)) :=
  [[("‚úÖ –ó–∞–ø–∏—Å–∞–Ω",
     "lead:" ++ toString lead_id ++ ":booked"),
    ("‚è∞ –ü–µ—Ä–µ–∑–≤–æ–Ω–∏—Ç—å",
     "lead:" ++ toString lead_id ++ ":call_back")],
   [("‚ùå –û—Ç–∫–∞–∑",
     "lead:" ++ toString lead_id ++ ":rejected")]]

/-! ## `app/server.py` -/

/-- The webhook JSON body (`WebhookPayload`): `source` and `text` required,
`name` and `phone` optional. -/
structure WebhookPayload where
  source : String
  text : String
  name : Option String := none
  phone : Option String := none
deriving Repr, DecidableEq

/-- Outcome of the `POST /webhook/{token}` endpoint. -/
inductive WebhookResp where
  /-- The `HTTPException(status_code=404, detail="Unknown token")`. -/
  | notFound : WebhookResp
  /-- The `{"ok": True, "lead_id": lead_id}`. -/
  | ok (lead_id : Nat) : WebhookResp
deriving Repr, DecidableEq

/-- A `sendMessage` call issued to the Telegram transport: chat id, text,
and the keyboard attached. -/
structure SendCall where
  chat_id : Int
  text : String
  reply_markup : List (List (String × String))
deriving Repr, DecidableEq

/-- The `webhook` endpoint of `app/server.py`.  `now` stands for
`utc_now_iso()`, `sendMsgId` for the message id the transport returns from
`send_message`, and `fmtTs` for the timestamp rendering inside
`format_lead_text`.  Returns the response, the final database and the trace
of transport send calls. -/
def webhook (db : DB) (token : String) (payload : WebhookPayload)
    (now : String) (sendMsgId : Int) (fmtTs : String → String) :
    WebhookResp × DB × List SendCall :=
  match get_user_by_token db token with
  | none => (.notFound, db, [])
  | some user =>
    let r1 := upsert_client db user.id payload.name payload.phone now
    let client_id := r1.1
    let db1 := r1.2
    let r2 := create_lead db1 user.id payload.source payload.text
      payload.name payload.phone client_id "new" user.tg_chat_id now
    let lead_id := r2.1
    let db2 := r2.2
    if truthyI user.tg_chat_id then
      let chat_id := user.tg_chat_id.getD 0
      match get_lead_by_id db2 (lead_id : Int) with
      | some lead =>
        let sc : SendCall := ⟨chat_id, format_lead_text fmtTs lead, lead_keyboard (lead_id : Int)⟩
        let db3 := set_lead_telegram_message db2 (lead_id : Int) sendMsgId chat_id
        (.ok lead_id, db3, [sc])
      | none => (.ok lead_id, db2, [])
    else (.ok lead_id, db2, [])

/-- The `GET /debug/leads/{token}` endpoint: resolves the token (404 when
unknown) and returns the recent leads under the caller-supplied limit,
passed through unmodified. -/
def debug_list_leads (db : DB) (token : String) (limit : Int) : Option (List Lead) :=
  match get_user_by_token db token with
  | none => none
  | some user => some (list_recent_leads db user.id limit)

/-! ## `app/bot.py` -/

/-- The fields of a `callback_query` update the handler reads:
`cq.get("id")`, `cq.get("data")`, and the originating message's chat id and
message id. -/
structure CallbackQuery where
  id : Option String
  data : Option String
  msg_chat_id : Option Int
  msg_message_id : Option Int
deriving Repr, DecidableEq

/-- An outbound Telegram call made by `handle_callback_query`, in order. -/
inductive BotCall where
  /-- The `client.answer_callback_query(cq_id)`. -/
  | ack (cq_id : String) : BotCall
  /-- The `client.edit_message_text(chat_id, message_id, text, reply_markup)`. -/
  | edit (chat_id message_id : Int) (text : String)
      (reply_markup : List (List (String × String))) : BotCall
deriving Repr, DecidableEq

/-- The four recognized status tokens of the callback payload. -/
def statusSet : List String := ["booked", "call_back", "rejected", "new"]

/-- The `handle_callback_query(client, db_path, cq)`: returns the resulting
database and the ordered trace of transport calls.  The acknowledgement is
sent first, before any validation; the edit targets the callback's own
`{chat_id, message_id}` pair. -/
def handle_callback_query (fmtTs : String → String) (db : DB)
    (cq : CallbackQuery) : DB × List BotCall :=
  let data := pyStrip (cq.data.getD "")
  let ackCalls : List BotCall :=
    if truthyS cq.id then [.ack (cq.id.getD "")] else []
  if ¬(pyStartsWith data "lead:" && truthyI cq.msg_chat_id && truthyI cq.msg_message_id) then
    (db, ackCalls)
  else
    let parts := pySplit data ':'
    if parts.length ≠ 3 then (db, ackCalls)
    else
      match parsePyInt (parts.getD 1 "") with
      | none => (db, ackCalls)
      | some lead_id =>
        let status := parts.getD 2 ""
        if status ∈ statusSet then
          let db1 := set_lead_status db lead_id status
          match get_lead_by_id db1 lead_id with
          | none => (db1, ackCalls)
          | some lead =>
            (db1, ackCalls ++
              [.edit (cq.msg_chat_id.getD 0) (cq.msg_message_id.getD 0)
                (format_lead_text fmtTs lead) (lead_keyboard lead_id)])
        else (db, ackCalls)

/-- The `/last N` branch of `handle_message` after integer parsing:
`n = max(1, min(n, 100))`. -/
def last_command_limit (n : Int) : Int := max 1 (min n 100)

/-- The `handle_message`'s `/last` branch calling `db.list_recent_leads` with
the clamped count. -/
def handle_last (db : DB) (user_id : Nat) (n : Int) : List Lead :=
  list_recent_leads db user_id (last_command_limit n)

/-- One fetched update: `u.get("update_id", 0)` and whether dispatching it
(`handle_message` / `handle_callback_query`) raises. -/
structure TgUpdate where
  update_id : Option Int
deriving Repr, DecidableEq

/-- The body of `run`'s `for u in updates:` loop, as it acts on the cursor
`offset`: the offset is reassigned to `update_id + 1` *before* the event is
dispatched, and an exception raised by the dispatch aborts the rest of the
batch (it propagates to the surrounding `except`).  `handler u = true`
models a dispatch that returns normally, `false` one that raises. -/
def processUpdates (handler : TgUpdate → Bool) :
    Option Int → List TgUpdate → Option Int
  | off, [] => off
  | _, u :: rest =>
    let off' := some (u.update_id.getD 0 + 1)
    if handler u then processUpdates handler off' rest else off'

/-! ## General list lemmas used by the proofs -/

theorem find?_append_of_none {α : Type} {p : α → Bool} {l₁ l₂ : List α}
    (h : l₁.find? p = none) : (l₁ ++ l₂).find? p = l₂.find? p := by
  induction l₁ with
  | nil => rfl
  | cons x xs ih =>
    rcases hx : p x with _ | _
    · rw [List.find?_cons_of_neg _ (by simp [hx])] at h
      rw [List.cons_append, List.find?_cons_of_neg _ (by simp [hx])]
      exact ih h
    · rw [List.find?_cons_of_pos _ hx] at h
      exact absurd h (by simp)

theorem map_id_of_mem {α : Type} {f : α → α} {l : List α}
    (h : ∀ a ∈ l, f a = a) : l.map f = l := by
  induction l with
  | nil => rfl
  | cons x xs ih =>
    simp only [List.map_cons, h x (by simp)]
    rw [ih (fun a ha => h a (by simp [ha]))]

/-! ## Frame lemmas for the store operations -/

/-- The `upsert_client` touches only the `clients` table and its counter. -/
theorem upsert_client_frame (db : DB) (uid : Nat) (nm ph : Option String)
    (now : String) :
    ((upsert_client db uid nm ph now).2).leads = db.leads ∧
    ((upsert_client db uid nm ph now).2).nextLeadId = db.nextLeadId ∧
    ((upsert_client db uid nm ph now).2).users = db.users := by
  unfold upsert_client
  (repeat' split) <;> exact ⟨rfl, rfl, rfl⟩

/-- Looking a lead up after `set_lead_status` returns it with the new
status. -/
theorem find?_map_status (ls : List Lead) (lid : Int) (st : String) (l : Lead)
    (h : ls.find? (fun x => (x.id : Int) = lid) = some l) :
    (ls.map (fun x => if (x.id : Int) = lid then { x with status := st } else x)).find?
      (fun x => (x.id : Int) = lid) = some { l with status := st } := by
  induction ls with
  | nil => simp at h
  | cons x xs ih =>
    by_cases hx : ((x.id : Int) = lid)
    · rw [List.find?_cons_of_pos _ (by simp [hx])] at h
      injection h with h
      subst h
      simp only [List.map_cons, if_pos hx]
      exact List.find?_cons_of_pos _ (by simp [hx])
    · rw [List.find?_cons_of_neg _ (by simp [hx])] at h
      simp only [List.map_cons, if_neg hx]
      rw [List.find?_cons_of_neg _ (by simp [hx])]
      exact ih h

theorem get_lead_by_id_set_lead_status (db : DB) (lid : Int) (st : String)
    (l : Lead) (h : get_lead_by_id db lid = some l) :
    get_lead_by_id (set_lead_status db lid st) lid = some { l with status := st } :=
  find?_map_status db.leads lid st l h

/-! ## Concrete states used by the witnesses and counterexamples -/

/-- A registered tenant bound to chat 777. -/
def wUser : User := ⟨1, some 777, "tok", "t0"⟩

/-- A store holding only `wUser`. -/
def wDb : DB := ⟨[wUser], [], [], 2, 1, 1⟩

/-- A trivial timestamp renderer (the `created_human` branch is empty). -/
def fmt0 : String → String := fun _ => ""

/-- A concrete webhook payload. -/
def wPayload : WebhookPayload := ⟨"instagram", "hi", some "Anna", some "+1"⟩

/-! ## Claim theorems -/

/-- C7: for a token not registered to any tenant, the webhook ingress
operation responds not-found, leaves the store exactly as it was (no lead,
no client) and issues no transport call. -/
theorem webhook_unknown_token_unchanged (db : DB) (token : String)
    (p : WebhookPayload) (now : String) (mid : Int) (fmtTs : String → String)
    (h : get_user_by_token db token = none) :
    webhook db token p now mid fmtTs = (.notFound, db, []) := by
  unfold webhook
  rw [h]

/-- Witness for C7 at a concrete store and token. -/
theorem webhook_unknown_token_unchanged_witness :
    webhook wDb "bad" wPayload "t1" 111 fmt0 = (.notFound, wDb, []) :=
  webhook_unknown_token_unchanged wDb "bad" wPayload "t1" 111 fmt0 (by decide)

/-- C1: for a registered token and any payload, one webhook call appends
exactly one new lead row whose source, text, name and phone equal the
payload's fields and whose status is `new`, and the response carries that
lead's id. -/
theorem webhook_creates_one_lead (db : DB) (token : String) (p : WebhookPayload)
    (now : String) (mid : Int) (fmtTs : String → String) (user : User)
    (hids : ∀ l ∈ db.leads, l.id < db.nextLeadId)
    (hu : get_user_by_token db token = some user) :
    ∃ l : Lead,
      (webhook db token p now mid fmtTs).1 = WebhookResp.ok l.id ∧
      (webhook db token p now mid fmtTs).2.1.leads = db.leads ++ [l] ∧
      l.source = p.source ∧ l.text = p.text ∧ l.name = p.name ∧
      l.phone = p.phone ∧ l.status = "new" := by
  obtain ⟨hfl, hfn, -⟩ := upsert_client_frame db user.id p.name p.phone now
  unfold webhook
  rw [hu]
  dsimp only
  set r1 := upsert_client db user.id p.name p.phone now with hr1
  set base : Lead :=
    ⟨db.nextLeadId, user.id, r1.1, p.source, p.name, p.phone, p.text, "new",
      now, user.tg_chat_id, none⟩ with hbase
  set db2 : DB :=
    { r1.2 with
      leads := db.leads ++ [base]
      nextLeadId := db.nextLeadId + 1 } with hdb2
  have hcl : create_lead r1.2 user.id p.source p.text p.name p.phone r1.1 "new"
      user.tg_chat_id now = (db.nextLeadId, db2) := by
    unfold create_lead
    rw [hdb2, hbase]
    rw [hfl, hfn]
  rw [hcl]
  dsimp only
  split
  case isTrue hc =>
    have hnone : db.leads.find? (fun x => (x.id : Int) = ((db.nextLeadId : Nat) : Int)) = none := by
      apply List.find?_eq_none.mpr
      intro x hx
      have := hids x hx
      simp only [decide_eq_true_eq, Int.natCast_inj]
      omega
    have hget : get_lead_by_id db2 ((db.nextLeadId : Nat) : Int) = some base := by
      unfold get_lead_by_id
      rw [hdb2]
      dsimp only
      rw [find?_append_of_none hnone]
      rw [hbase]
      simp
    rw [hget]
    dsimp only
    refine ⟨{ base with
              tg_message_id := some mid
              tg_chat_id := some (user.tg_chat_id.getD 0) }, rfl, ?_, rfl, rfl, rfl, rfl, rfl⟩
    unfold set_lead_telegram_message
    rw [hdb2]
    dsimp only
    rw [List.map_append]
    congr 1
    · apply map_id_of_mem
      intro a ha
      have hlt := hids a ha
      have hne : ¬((a.id : Int) = ((db.nextLeadId : Nat) : Int)) := by
        simp only [Int.natCast_inj]
        omega
      simp [hne]
    · rw [hbase]
      simp
  case isFalse hc =>
    exact ⟨base, rfl, rfl, rfl, rfl, rfl, rfl, rfl⟩

/-- Witness for C1: the concrete webhook call from the test suite's first
scenario appends one lead with the payload's fields. -/
theorem webhook_creates_one_lead_witness :
    ∃ l : Lead,
      (webhook wDb "tok" wPayload "t1" 111 fmt0).1 = WebhookResp.ok l.id ∧
      (webhook wDb "tok" wPayload "t1" 111 fmt0).2.1.leads = wDb.leads ++ [l] ∧
      l.source = wPayload.source ∧ l.text = wPayload.text ∧ l.name = wPayload.name ∧
      l.phone = wPayload.phone ∧ l.status = "new" :=
  webhook_creates_one_lead wDb "tok" wPayload "t1" 111 fmt0 wUser
    (by decide) (by decide)

/-! ## Rendering lemmas -/

theorem pyJoin_cons_cons (sep x y : String) (t : List String) :
    pyJoin sep (x :: y :: t) = x ++ (sep ++ pyJoin sep (y :: t))  := by
  rw [pyJoin, String.append_assoc]

/-- The rendered lead text always contains the status label as an infix. -/
theorem format_lead_text_has_label (fmtTs : String → String) (l : Lead) :
    ∃ pre post, format_lead_text fmtTs l = pre ++ statusLabel l.status ++ post := by
  unfold format_lead_text
  by_cases hc : fmtTs l.created_at = ""
  · simp only [hc, ne_eq, not_true_eq_false, if_false, List.cons_append, List.nil_append,
      List.singleton_append]
    exact ⟨_, _, pyJoin_cons_cons _ _ _ _⟩
  · simp only [ne_eq, hc, not_false_eq_true, if_true, List.cons_append, List.nil_append,
      List.singleton_append]
    exact ⟨_, _, pyJoin_cons_cons _ _ _ _⟩

/-! ## Callback handler evaluation -/

/-- Evaluation of `handle_callback_query` on a well-formed callback: the
acknowledgement is sent, the status is persisted, and one edit call targets
the callback's own `{chat, message}` pair. -/
theorem handle_callback_query_wellformed
    (db : DB) (fmtTs : String → String) (cqid d b st : String)
    (lid c m : Int) (l : Lead)
    (hne : cqid ≠ "")
    (hpre : pyStartsWith (pyStrip d) "lead:" = true)
    (hsplit : pySplit (pyStrip d) ':' = ["lead", b, st])
    (hb : parsePyInt b = some lid)
    (hst : st ∈ statusSet)
    (hc : c ≠ 0) (hm : m ≠ 0)
    (hfound : get_lead_by_id db lid = some l) :
    handle_callback_query fmtTs db ⟨some cqid, some d, some c, some m⟩
      = (set_lead_status db lid st,
         [BotCall.ack cqid,
          BotCall.edit c m (format_lead_text fmtTs { l with status := st })
            (lead_keyboard lid)]) := by
  unfold handle_callback_query
  have hack : truthyS (some cqid) = true := by simp [truthyS, hne]
  simp only [Option.getD_some, hack, eq_self_iff_true, if_true]
  split
  case isTrue hguard =>
    exact absurd (by simp [hpre, truthyI, hc, hm]) hguard
  case isFalse hguard =>
    rw [hsplit]
    rw [if_neg (by simp)]
    simp only [List.getD_cons_succ, List.getD_cons_zero]
    rw [hb]
    dsimp only
    rw [if_pos hst]
    rw [get_lead_by_id_set_lead_status db lid st l hfound]
    rfl

/-- A lead (id 42) bound to the remote message {chat 777, message 111}. -/
def wLead42 : Lead :=
  ⟨42, 1, none, "whatsapp", none, none, "test", "new", "t1", some 777, some 111⟩

/-- A store holding `wUser` and the bound lead `wLead42`. -/
def cDbBound : DB := ⟨[wUser], [], [wLead42], 2, 1, 43⟩

/-- A lead (id 1) with no bound remote message. -/
def wLeadUnbound : Lead :=
  ⟨1, 1, none, "web", none, none, "hello", "new", "t1", none, none⟩

/-- A store holding `wUser` and one unbound lead. -/
def cDbOneLead : DB := ⟨[wUser], [], [wLeadUnbound], 2, 1, 2⟩

/-- C2: for a lead bound to a remote message, a well-formed status callback
originating from that very message persists the new status and issues
exactly one edit call, targeting exactly the lead's bound
{chat id, message id} pair, whose rendered text contains the new status's
label. -/
theorem callback_bound_edit_sync
    (db : DB) (fmtTs : String → String) (cqid d b st : String)
    (lid bc bm : Int) (l : Lead)
    (hne : cqid ≠ "")
    (hpre : pyStartsWith (pyStrip d) "lead:" = true)
    (hsplit : pySplit (pyStrip d) ':' = ["lead", b, st])
    (hb : parsePyInt b = some lid)
    (hst : st ∈ statusSet)
    (hbc : bc ≠ 0) (hbm : bm ≠ 0)
    (hchat : l.tg_chat_id = some bc) (hmsg : l.tg_message_id = some bm)
    (hfound : get_lead_by_id db lid = some l) :
    handle_callback_query fmtTs db ⟨some cqid, some d, some bc, some bm⟩
      = (set_lead_status db lid st,
         [BotCall.ack cqid,
          BotCall.edit bc bm (format_lead_text fmtTs { l with status := st })
            (lead_keyboard lid)]) ∧
    get_lead_by_id (set_lead_status db lid st) lid = some { l with status := st } ∧
    ∃ pre post,
      format_lead_text fmtTs { l with status := st } = pre ++ statusLabel st ++ post :=
  ⟨handle_callback_query_wellformed db fmtTs cqid d b st lid bc bm l
      hne hpre hsplit hb hst hbc hbm hfound,
   get_lead_by_id_set_lead_status db lid st l hfound,
   format_lead_text_has_label fmtTs { l with status := st }⟩

/-- Witness for C2: the spec's end-to-end scenario 4 (`lead:42:booked`
against a lead bound to {777, 111}). -/
theorem callback_bound_edit_sync_witness :
    handle_callback_query fmt0 cDbBound ⟨some "cq1", some "lead:42:booked", some 777, some 111⟩
      = (set_lead_status cDbBound 42 "booked",
         [BotCall.ack "cq1",
          BotCall.edit 777 111 (format_lead_text fmt0 { wLead42 with status := "booked" })
            (lead_keyboard 42)]) ∧
    get_lead_by_id (set_lead_status cDbBound 42 "booked") 42
      = some { wLead42 with status := "booked" } ∧
    ∃ pre post,
      format_lead_text fmt0 { wLead42 with status := "booked" }
        = pre ++ statusLabel "booked" ++ post :=
  callback_bound_edit_sync cDbBound fmt0 "cq1" "lead:42:booked" "42" "booked"
    42 777 111 wLead42 (by decide) (by decide) (by decide) (by decide) (by decide)
    (by decide) (by decide) (by decide) (by decide) (by decide)

/-- C10: the handler applies the status named by the callback token without
consulting which chat issued the callback — the store outcome is identical
for two callbacks differing only in their originating {chat, message} pair —
and the edit targets the callback event's own pair, not the lead's stored
binding. -/
theorem callback_ignores_issuing_chat
    (db : DB) (fmtTs : String → String) (cqid d b st : String)
    (lid c m c' m' : Int) (l : Lead)
    (hne : cqid ≠ "")
    (hpre : pyStartsWith (pyStrip d) "lead:" = true)
    (hsplit : pySplit (pyStrip d) ':' = ["lead", b, st])
    (hb : parsePyInt b = some lid)
    (hst : st ∈ statusSet)
    (hc : c ≠ 0) (hm : m ≠ 0) (hc' : c' ≠ 0) (hm' : m' ≠ 0)
    (hfound : get_lead_by_id db lid = some l) :
    (handle_callback_query fmtTs db ⟨some cqid, some d, some c, some m⟩).1
      = (handle_callback_query fmtTs db ⟨some cqid, some d, some c', some m'⟩).1 ∧
    handle_callback_query fmtTs db ⟨some cqid, some d, some c, some m⟩
      = (set_lead_status db lid st,
         [BotCall.ack cqid,
          BotCall.edit c m (format_lead_text fmtTs { l with status := st })
            (lead_keyboard lid)]) := by
  rw [handle_callback_query_wellformed db fmtTs cqid d b st lid c m l
      hne hpre hsplit hb hst hc hm hfound,
    handle_callback_query_wellformed db fmtTs cqid d b st lid c' m' l
      hne hpre hsplit hb hst hc' hm' hfound]
  exact ⟨rfl, rfl⟩

/-- Witness for C10: a callback for the bound lead 42 issued from a foreign
chat {999, 222} mutates the store identically and the edit targets
{999, 222}, not the stored binding {777, 111}. -/
theorem callback_ignores_issuing_chat_witness :
    (handle_callback_query fmt0 cDbBound ⟨some "cq1", some "lead:42:booked", some 999, some 222⟩).1
      = (handle_callback_query fmt0 cDbBound ⟨some "cq1", some "lead:42:booked", some 777, some 111⟩).1 ∧
    handle_callback_query fmt0 cDbBound ⟨some "cq1", some "lead:42:booked", some 999, some 222⟩
      = (set_lead_status cDbBound 42 "booked",
         [BotCall.ack "cq1",
          BotCall.edit 999 222 (format_lead_text fmt0 { wLead42 with status := "booked" })
            (lead_keyboard 42)]) :=
  callback_ignores_issuing_chat cDbBound fmt0 "cq1" "lead:42:booked" "42" "booked"
    42 999 222 777 111 wLead42 (by decide) (by decide) (by decide) (by decide)
    (by decide) (by decide) (by decide) (by decide) (by decide) (by decide)

/-- Counterexample to C3 as stated: against a lead with *no* bound remote
message, a status callback that carries an originating {chat, message} pair
still invokes the edit primitive (targeting the callback's own pair) — the
handler never consults the lead's binding. -/
theorem callback_unbound_still_edits_cex :
    (cDbOneLead.leads.map Lead.tg_message_id = [none]) ∧
    (handle_callback_query fmt0 cDbOneLead
        ⟨some "cq1", some "lead:1:booked", some 777, some 111⟩).2
      = [BotCall.ack "cq1",
         BotCall.edit 777 111
           (format_lead_text fmt0 { wLeadUnbound with status := "booked" })
           (lead_keyboard 1)] ∧
    ((handle_callback_query fmt0 cDbOneLead
        ⟨some "cq1", some "lead:1:booked", some 777, some 111⟩).1.leads.map Lead.status)
      = ["booked"] := by
  decide

/-- C3 amended: for a lead with no bound remote message, a status callback
without an originating message pair performs no store mutation and no edit;
one carrying a pair persists the status and still edits, targeting the
callback's own pair (the lead's empty binding is never consulted). -/
theorem callback_unbound_lead_behavior
    (db : DB) (fmtTs : String → String) (cqid d b st : String)
    (lid : Int) (l : Lead)
    (hne : cqid ≠ "")
    (hpre : pyStartsWith (pyStrip d) "lead:" = true)
    (hsplit : pySplit (pyStrip d) ':' = ["lead", b, st])
    (hb : parsePyInt b = some lid)
    (hst : st ∈ statusSet)
    (hfound : get_lead_by_id db lid = some l)
    (hunbound : l.tg_message_id = none) :
    (∀ cc mm : Option Int, ¬(truthyI cc = true ∧ truthyI mm = true) →
      handle_callback_query fmtTs db ⟨some cqid, some d, cc, mm⟩
        = (db, [BotCall.ack cqid])) ∧
    (∀ c m : Int, c ≠ 0 → m ≠ 0 →
      handle_callback_query fmtTs db ⟨some cqid, some d, some c, some m⟩
        = (set_lead_status db lid st,
           [BotCall.ack cqid,
            BotCall.edit c m (format_lead_text fmtTs { l with status := st })
              (lead_keyboard lid)]) ∧
      get_lead_by_id (set_lead_status db lid st) lid = some { l with status := st }) := by
  constructor
  · intro cc mm hpair
    unfold handle_callback_query
    have hack : truthyS (some cqid) = true := by simp [truthyS, hne]
    simp only [Option.getD_some, hack, eq_self_iff_true, if_true]
    split
    case isTrue hguard => rfl
    case isFalse hguard =>
      exfalso
      apply hpair
      have h : pyStartsWith (pyStrip d) "lead:" = true ∧
          truthyI cc = true ∧ truthyI mm = true := by simpa using hguard
      exact ⟨h.2.1, h.2.2⟩
  · intro c m hc hm
    exact ⟨handle_callback_query_wellformed db fmtTs cqid d b st lid c m l
        hne hpre hsplit hb hst hc hm hfound,
      get_lead_by_id_set_lead_status db lid st l hfound⟩

/-- Witness for the amended C3 at the concrete unbound lead. -/
theorem callback_unbound_lead_behavior_witness :
    handle_callback_query fmt0 cDbOneLead ⟨some "cq1", some "lead:1:booked", none, none⟩
      = (cDbOneLead, [BotCall.ack "cq1"]) ∧
    handle_callback_query fmt0 cDbOneLead ⟨some "cq1", some "lead:1:booked", some 777, some 111⟩
      = (set_lead_status cDbOneLead 1 "booked",
         [BotCall.ack "cq1",
          BotCall.edit 777 111 (format_lead_text fmt0 { wLeadUnbound with status := "booked" })
            (lead_keyboard 1)]) :=
  ⟨(callback_unbound_lead_behavior cDbOneLead fmt0 "cq1" "lead:1:booked" "1" "booked"
      1 wLeadUnbound (by decide) (by decide) (by decide) (by decide) (by decide)
      (by decide) (by decide)).1 none none (by decide),
   ((callback_unbound_lead_behavior cDbOneLead fmt0 "cq1" "lead:1:booked" "1" "booked"
      1 wLeadUnbound (by decide) (by decide) (by decide) (by decide) (by decide)
      (by decide) (by decide)).2 777 111 (by decide) (by decide)).1⟩

/-- C8: any malformed callback payload (wrong segment count, non-integer
lead id, or unrecognized status token) is acknowledged — the ack is issued
before validation, and is the only transport call — and the store is left
unchanged. -/
theorem callback_malformed_acked_no_mutation
    (db : DB) (fmtTs : String → String) (cq : CallbackQuery) (cqid : String)
    (hid : cq.id = some cqid) (hne : cqid ≠ "")
    (hmal : (pySplit (pyStrip (cq.data.getD "")) ':').length ≠ 3 ∨
            ∃ a b c, pySplit (pyStrip (cq.data.getD "")) ':' = [a, b, c] ∧
              (parsePyInt b = none ∨ c ∉ statusSet)) :
    handle_callback_query fmtTs db cq = (db, [BotCall.ack cqid]) := by
  unfold handle_callback_query
  have hack : truthyS (some cqid) = true := by simp [truthyS, hne]
  simp only [hid, hack, Option.getD_some, eq_self_iff_true, if_true]
  split
  case isTrue hguard => rfl
  case isFalse hguard =>
    split
    case isTrue hlen => rfl
    case isFalse hlen =>
      rcases hmal with hl | ⟨a, b, c, hsp, hbc⟩
      · exact absurd hl hlen
      · rw [hsp]
        simp only [List.getD_cons_succ, List.getD_cons_zero]
        rcases hbc with hbn | hcn
        · rw [hbn]
        · cases hpb : parsePyInt b with
          | none => rfl
          | some lead_id =>
            dsimp only
            rw [if_neg hcn]

/-- Witness for C8: `lead:1:bogus` (unrecognized status) is acked and the
store is untouched. -/
theorem callback_malformed_acked_no_mutation_witness :
    handle_callback_query fmt0 cDbOneLead
        ⟨some "cq9", some "lead:1:bogus", some 777, some 111⟩
      = (cDbOneLead, [BotCall.ack "cq9"]) :=
  callback_malformed_acked_no_mutation cDbOneLead fmt0
    ⟨some "cq9", some "lead:1:bogus", some 777, some 111⟩ "cq9" rfl (by decide)
    (Or.inr ⟨"lead", "1", "bogus", by decide, Or.inr (by decide)⟩)

/-! ## Tenant registry (C9) -/

/-- The token-retry loop only ever returns a candidate absent from the
used-token list. -/
theorem genFreshToken_not_mem (used : List String) :
    ∀ (cands : List String) (t : String),
      genFreshToken used cands = some t → t ∉ used
  | [], t, h => by simp [genFreshToken] at h
  | c :: cs, t, h => by
    unfold genFreshToken at h
    by_cases hc : used.contains c
    · rw [if_pos hc] at h
      exact genFreshToken_not_mem used cs t h
    · rw [if_neg hc] at h
      injection h with h
      subst h
      intro hmem
      exact hc (by simpa using hmem)

/-- C9: resolving the same chat identity twice returns the same tenant row
(same id, same token) and the same store both times; and the token issued
to a freshly created tenant is distinct from every token already stored. -/
theorem tenant_resolve_idempotent_fresh
    (db : DB) (chat : Int) (cands cands' : List String) (now now' : String)
    (u : User) (db1 : DB)
    (h : get_or_create_user_by_chat_id db chat cands now = some (u, db1)) :
    get_or_create_user_by_chat_id db1 chat cands' now' = some (u, db1) ∧
    (db.users.find? (fun v => v.tg_chat_id = some chat) = none →
      u.token ∉ db.users.map User.token) := by
  unfold get_or_create_user_by_chat_id at h ⊢
  cases hfind : db.users.find? (fun v => v.tg_chat_id = some chat) with
  | some row =>
    rw [hfind] at h
    injection h with h
    rw [Prod.mk.injEq] at h
    obtain ⟨hu, hdb⟩ := h
    subst hu
    subst hdb
    rw [hfind]
    refine ⟨rfl, fun hnone => ?_⟩
    simp at hnone
  | none =>
    rw [hfind] at h
    cases htok : genFreshToken (db.users.map User.token) cands with
    | none =>
      rw [htok] at h
      exact absurd h (by simp)
    | some tok =>
      rw [htok] at h
      dsimp only at h
      have hfind2 : (db.users ++ [(⟨db.nextUserId, some chat, tok, now⟩ : User)]).find?
          (fun v => v.tg_chat_id = some chat)
          = some ⟨db.nextUserId, some chat, tok, now⟩ := by
        rw [find?_append_of_none hfind]
        simp
      rw [hfind2] at h
      rw [Option.map_some'] at h
      injection h with h
      rw [Prod.mk.injEq] at h
      obtain ⟨hu, hdb⟩ := h
      constructor
      · rw [← hdb]
        dsimp only
        rw [hfind2, ← hu]
      · intro _
        rw [← hu]
        exact genFreshToken_not_mem (db.users.map User.token) cands tok htok

/-- States for the C9 witness: a fresh store, and the tenant created in it
for chat 42 with the first candidate token. -/
def wDb9 : DB := ⟨[], [], [], 1, 1, 1⟩

def wUser9 : User := ⟨1, some 42, "a", "t0"⟩

def wDb9a : DB := ⟨[wUser9], [], [], 2, 1, 1⟩

/-- Witness for C9 at a concrete chat identity and token stream. -/
theorem tenant_resolve_idempotent_fresh_witness :
    get_or_create_user_by_chat_id wDb9a 42 ["c"] "t1" = some (wUser9, wDb9a) ∧
    (wDb9.users.find? (fun v => v.tg_chat_id = some 42) = none →
      wUser9.token ∉ wDb9.users.map User.token) :=
  tenant_resolve_idempotent_fresh wDb9 42 ["a"] ["c"] "t0" "t1" wUser9 wDb9a (by decide)

/-! ## Update cursor (C5) -/

/-- When every event in the batch is handled without error, the cursor ends
one past the last (highest, for ascending batches) event id. -/
theorem processUpdates_all_ok (handler : TgUpdate → Bool) :
    ∀ (us : List TgUpdate) (hne : us ≠ []) (off : Option Int),
      (∀ u ∈ us, handler u = true) →
      processUpdates handler off us = some ((us.getLast hne).update_id.getD 0 + 1)
  | [], hne, _, _ => absurd rfl hne
  | [x], _, off, _ => by
    simp [processUpdates]
  | x :: y :: t, _, off, hok => by
    have hx : handler x = true := hok x (by simp)
    have ih := processUpdates_all_ok handler (y :: t) (by simp)
      (some (x.update_id.getD 0 + 1)) (fun u hu => hok u (List.mem_cons_of_mem _ hu))
    simp only [processUpdates, hx, if_true]
    exact ih

/-- An event whose handler raises stops the batch: the cursor ends one past
that event's id, and the rest of the batch is not reached. -/
theorem processUpdates_stops_at_error (handler : TgUpdate → Bool) :
    ∀ (pre : List TgUpdate) (u : TgUpdate) (post : List TgUpdate) (off : Option Int),
      (∀ v ∈ pre, handler v = true) → handler u = false →
      processUpdates handler off (pre ++ u :: post) = some (u.update_id.getD 0 + 1)
  | [], u, post, off, _, hu => by
    simp [processUpdates, hu]
  | p :: ps, u, post, off, hok, hu => by
    have hp : handler p = true := hok p (by simp)
    simp only [List.cons_append, processUpdates, hp, if_true]
    exact processUpdates_stops_at_error handler ps u post _
      (fun v hv => hok v (List.mem_cons_of_mem _ hv)) hu

/-- Counterexample to C5 as stated: with the batch {10, 11} and a handler
that raises on event 10, the cursor ends at 11 — one past the *failing*
event — not at 12, one past the batch's highest id; event 11 is re-fetched. -/
theorem cursor_stops_midbatch_cex :
    (fun u : TgUpdate => u.update_id ≠ some 10) ⟨some 10⟩ = false ∧
    processUpdates (fun u => u.update_id ≠ some 10) none
      [(⟨some 10⟩ : TgUpdate), ⟨some 11⟩] = some 11 ∧
    processUpdates (fun u => u.update_id ≠ some 10) none
      [(⟨some 10⟩ : TgUpdate), ⟨some 11⟩] ≠ some (11 + 1) := by
  decide

/-- C5 amended: the cursor ends one past the last event *reached*: one past
the final (highest) id when no handler error occurred, and one past the
failing event's id when a handler raised — later events of the batch are
abandoned (and re-fetched), though the failing event itself is never
retried. -/
theorem cursor_advances_to_last_reached (handler : TgUpdate → Bool)
    (off : Option Int) (us : List TgUpdate) (hne : us ≠ []) :
    ((∀ u ∈ us, handler u = true) →
      processUpdates handler off us = some ((us.getLast hne).update_id.getD 0 + 1)) ∧
    (∀ pre u post, us = pre ++ u :: post → (∀ v ∈ pre, handler v = true) →
      handler u = false →
      processUpdates handler off us = some (u.update_id.getD 0 + 1)) :=
  ⟨fun hok => processUpdates_all_ok handler us hne off hok,
   fun pre u post hsp hok hu => by
    subst hsp
    exact processUpdates_stops_at_error handler pre u post off hok hu⟩

/-- Witness for the amended C5: error-free batch {10, 11} ends at 12;
failing first event ends at 11. -/
theorem cursor_advances_to_last_reached_witness :
    processUpdates (fun _ => true) none [(⟨some 10⟩ : TgUpdate), ⟨some 11⟩]
      = some ((11 : Int) + 1) ∧
    processUpdates (fun u => u.update_id ≠ some 10) none
      [(⟨some 10⟩ : TgUpdate), ⟨some 11⟩] = some ((10 : Int) + 1) :=
  ⟨(cursor_advances_to_last_reached (fun _ => true) none
      [⟨some 10⟩, ⟨some 11⟩] (by decide)).1 (by decide),
   (cursor_advances_to_last_reached (fun u => u.update_id ≠ some 10) none
      [⟨some 10⟩, ⟨some 11⟩] (by decide)).2 [] ⟨some 10⟩ [⟨some 11⟩] rfl
      (by decide) (by decide)⟩

/-! ## List-limit clamping (C6) -/

/-- Counterexample to C6 as stated: the debug endpoint passes its limit to
`list_recent_leads` unclamped — with limit 0 it returns no leads although
the tenant has one, whereas clamping into [1, 100] would return that lead. -/
theorem listrecent_unclamped_cex :
    get_user_by_token cDbOneLead "tok" = some wUser ∧
    (cDbOneLead.leads.filter (fun l => l.user_id = wUser.id)).length = 1 ∧
    debug_list_leads cDbOneLead "tok" 0 = some [] ∧
    debug_list_leads cDbOneLead "tok" 1 = some [wLeadUnbound] := by
  decide

/-- C6 amended: only the `/last` command path clamps the supplied count
into [1, 100] before invoking `list_recent_leads` (so that path returns at
most 100 leads and a non-positive count behaves as 1); `list_recent_leads`
itself and the debug endpoint apply the raw SQL limit — in particular a
limit of 0 returns the empty list on the debug path regardless of the
stored leads. -/
theorem last_clamps_but_debug_does_not (db : DB) (uid : Nat) (n : Int) :
    1 ≤ last_command_limit n ∧ last_command_limit n ≤ 100 ∧
    (handle_last db uid n).length ≤ 100 ∧
    (∀ tok u, get_user_by_token db tok = some u →
      debug_list_leads db tok 0 = some []) := by
    refine ⟨le_max_left 1 _, max_le (by norm_num) (min_le_right _ _), ?_, ?_⟩
    · have h1 : (1 : Int) ≤ last_command_limit n := le_max_left 1 _
      have h2 : last_command_limit n ≤ 100 := max_le (by norm_num) (min_le_right _ _)
      unfold handle_last list_recent_leads sqlLimit
      rw [if_neg (by omega)]
      refine le_trans (List.length_take_le _ _) ?_
      omega
    · intro tok u hu
      unfold debug_list_leads list_recent_leads sqlLimit
      rw [hu]
      dsimp only
      rw [if_neg (by norm_num)]
      simp

/-- Witness for the amended C6 at a concrete store and limit. -/
theorem last_clamps_but_debug_does_not_witness :
    1 ≤ last_command_limit 0 ∧ last_command_limit 0 ≤ 100 ∧
    (handle_last cDbOneLead 1 0).length ≤ 100 ∧
    debug_list_leads cDbOneLead "tok" 0 = some [] :=
  ⟨(last_clamps_but_debug_does_not cDbOneLead 1 0).1,
   (last_clamps_but_debug_does_not cDbOneLead 1 0).2.1,
   (last_clamps_but_debug_does_not cDbOneLead 1 0).2.2.1,
   (last_clamps_but_debug_does_not cDbOneLead 1 0).2.2.2 "tok" wUser (by decide)⟩

/-! ## Client resolver (C4) -/

theorem newestOf_map_of_id (g : Client → Client) (hg : ∀ c, (g c).id = c.id) :
    ∀ l : List Client, newestOf (l.map g) = (newestOf l).map g
  | [] => rfl
  | c :: cs => by
    rw [List.map_cons]
    unfold newestOf
    rw [newestOf_map_of_id g hg cs]
    cases newestOf cs with
    | none => rfl
    | some d =>
      rw [Option.map_some']
      dsimp only
      rw [hg d, hg c, apply_ite (Option.map g), Option.map_some', Option.map_some']

theorem filter_map_comm (g : Client → Client) (p : Client → Bool)
    (hp : ∀ c, p (g c) = p c) :
    ∀ l : List Client, (l.map g).filter p = (l.filter p).map g
  | [] => rfl
  | c :: cs => by
    rw [List.map_cons, List.filter_cons, List.filter_cons, hp c]
    cases hpc : p c with
    | false => simpa using filter_map_comm g p hp cs
    | true => simp [filter_map_comm g p hp cs]

theorem newestOf_eq_none {l : List Client} (h : newestOf l = none) : l = [] := by
  cases l with
  | nil => rfl
  | cons c cs =>
    unfold newestOf at h
    cases hcs : newestOf cs with
    | none =>
      rw [hcs] at h
      exact absurd h (by simp)
    | some d =>
      rw [hcs] at h
      dsimp only at h
      by_cases hlt : d.id < c.id
      · rw [if_pos hlt] at h
        exact absurd h (by simp)
      · rw [if_neg hlt] at h
        exact absurd h (by simp)

/-- Rewriting the matched row's name leaves it the newest match, now with
the new name. -/
theorem newestClientMatch_overwrite (db : DB) (uid : Nat) (ph : String)
    (row : Client) (nm : String)
    (h : newestClientMatch db uid ph = some row) :
    newestClientMatch { db with clients := overwriteClientName db.clients row.id nm } uid ph
      = some { row with name := coalesce (some nm) row.name } := by
  unfold newestClientMatch at h ⊢
  unfold overwriteClientName
  dsimp only
  have hid : ∀ c : Client,
      ((fun c : Client => if c.id = row.id then { c with name := coalesce (some nm) c.name } else c) c).id
        = c.id := by
    intro c
    by_cases hc : c.id = row.id <;> simp [hc]
  have hp : ∀ c : Client,
      (fun c : Client => decide (c.user_id = uid ∧ c.phone = some ph))
        ((fun c : Client => if c.id = row.id then { c with name := coalesce (some nm) c.name } else c) c)
      = (fun c : Client => decide (c.user_id = uid ∧ c.phone = some ph)) c := by
    intro c
    by_cases hc : c.id = row.id <;> simp [hc]
  rw [filter_map_comm _ _ hp, newestOf_map_of_id _ hid, h, Option.map_some']
  rw [if_pos rfl]

/-- Resolving with a present (non-empty) name against an existing
(tenant, phone) match returns that row's id and *overwrites* its stored
name with the incoming one (the `COALESCE(?, name)` with a non-null
parameter). -/
theorem upsert_client_overwrite (db : DB) (uid : Nat) (ph nm now : String)
    (row : Client) (hph : ph ≠ "") (hnm : nm ≠ "")
    (hrow : newestClientMatch db uid ph = some row) :
    (upsert_client db uid (some nm) (some ph) now).1 = some row.id ∧
    newestClientMatch ((upsert_client db uid (some nm) (some ph) now).2) uid ph
      = some { row with name := some nm } := by
  have hupd : upsert_client db uid (some nm) (some ph) now
      = (some row.id, { db with clients := overwriteClientName db.clients row.id nm }) := by
    unfold upsert_client
    rw [if_neg (by simp [truthyS, hnm])]
    dsimp only
    rw [if_pos hph, hrow]
    dsimp only
    rw [if_pos hnm]
  rw [hupd]
  refine ⟨rfl, ?_⟩
  have h := newestClientMatch_overwrite db uid ph row nm hrow
  simpa [coalesce] using h

/-- Resolving with phone only (no name): an existing match is returned
untouched; otherwise a fresh row is inserted. -/
theorem upsert_client_phone_only (db : DB) (uid : Nat) (ph now : String)
    (hph : ph ≠ "") :
    (∀ row, newestClientMatch db uid ph = some row →
      upsert_client db uid none (some ph) now = (some row.id, db)) ∧
    (newestClientMatch db uid ph = none →
      upsert_client db uid none (some ph) now
        = (some db.nextClientId,
           { db with
             clients := db.clients ++ [⟨db.nextClientId, uid, none, some ph, now⟩],
             nextClientId := db.nextClientId + 1 })) := by
  constructor
  · intro row hrow
    unfold upsert_client
    rw [if_neg (by simp [truthyS, hph])]
    dsimp only
    rw [if_pos hph, hrow]
  · intro hnone
    unfold upsert_client
    rw [if_neg (by simp [truthyS, hph])]
    dsimp only
    rw [if_pos hph, hnone]

/-- A store with one client named Anna for phone "+1". -/
def cDbClientAnna : DB :=
  ⟨[wUser], [⟨1, 1, some "Anna", some "+1", "t0"⟩], [], 2, 2, 1⟩

/-- Counterexample to C4 as stated: resolving with an incoming non-null
name against an existing match whose stored name is already non-null
*replaces* the stored name ("Anna" becomes "Bob"), which C4 says never
happens. -/
theorem upsert_overwrites_nonnull_name_cex :
    (cDbClientAnna.clients.map Client.name = [some "Anna"]) ∧
    (upsert_client cDbClientAnna 1 (some "Bob") (some "+1") "t1").1 = some 1 ∧
    ((upsert_client cDbClientAnna 1 (some "Bob") (some "+1") "t1").2.clients.map Client.name
      = [some "Bob"]) := by
  decide

/-- C4 amended: resolving an existing (tenant, phone) match merges a
present (non-null, non-empty) incoming name *unconditionally* — it
overwrites the stored name whether or not that name was null (last write
wins); a null or empty incoming name leaves the stored name unchanged.  In
particular the two-call scenario (null name, then a name) returns the same
client id twice and the stored name afterwards equals the second call's
name. -/
theorem upsert_client_name_merge (db : DB) (uid : Nat) (ph nm now now2 : String)
    (hph : ph ≠ "") (hnm : nm ≠ "") :
    (∀ row, newestClientMatch db uid ph = some row →
      (upsert_client db uid (some nm) (some ph) now).1 = some row.id ∧
      newestClientMatch ((upsert_client db uid (some nm) (some ph) now).2) uid ph
        = some { row with name := some nm }) ∧
    (∃ cid c,
      (upsert_client db uid none (some ph) now).1 = some cid ∧
      (upsert_client ((upsert_client db uid none (some ph) now).2) uid
        (some nm) (some ph) now2).1 = some cid ∧
      newestClientMatch
        ((upsert_client ((upsert_client db uid none (some ph) now).2) uid
          (some nm) (some ph) now2).2) uid ph = some c ∧
      c.id = cid ∧ c.name = some nm) := by
  constructor
  · intro row hrow
    exact upsert_client_overwrite db uid ph nm now row hph hnm hrow
  · cases hmatch : newestClientMatch db uid ph with
    | some row0 =>
      have h1 := (upsert_client_phone_only db uid ph now hph).1 row0 hmatch
      rw [h1]
      dsimp only
      have h2 := upsert_client_overwrite db uid ph nm now2 row0 hph hnm hmatch
      exact ⟨row0.id, { row0 with name := some nm }, rfl, h2.1, h2.2, rfl, rfl⟩
    | none =>
      have h1 := (upsert_client_phone_only db uid ph now hph).2 hmatch
      rw [h1]
      dsimp only
      have hmatch' : newestClientMatch
          { db with
            clients := db.clients ++ [⟨db.nextClientId, uid, none, some ph, now⟩],
            nextClientId := db.nextClientId + 1 } uid ph
          = some ⟨db.nextClientId, uid, none, some ph, now⟩ := by
        unfold newestClientMatch at hmatch ⊢
        dsimp only
        rw [List.filter_append, newestOf_eq_none hmatch]
        simp [newestOf]
      have h2 := upsert_client_overwrite
        { db with
          clients := db.clients ++ [⟨db.nextClientId, uid, none, some ph, now⟩],
          nextClientId := db.nextClientId + 1 } uid ph nm now2
        ⟨db.nextClientId, uid, none, some ph, now⟩ hph hnm hmatch'
      exact ⟨db.nextClientId, ⟨db.nextClientId, uid, some nm, some ph, now⟩,
        rfl, h2.1, h2.2, rfl, rfl⟩

/-- Witness for the amended C4: merging "Bob" onto the Anna row. -/
theorem upsert_client_name_merge_witness :
    (upsert_client cDbClientAnna 1 (some "Bob") (some "+1") "t1").1 = some 1 ∧
    newestClientMatch ((upsert_client cDbClientAnna 1 (some "Bob") (some "+1") "t1").2) 1 "+1"
      = some ⟨1, 1, some "Bob", some "+1", "t0"⟩ :=
  (upsert_client_name_merge cDbClientAnna 1 "+1" "Bob" "t1" "t2"
      (by decide) (by decide)).1
    ⟨1, 1, some "Anna", some "+1", "t0"⟩ (by decide)

end Inbox
